import Mathlib

/-!
Shallow embedding of the IFC viewer front-end (`src/App.tsx`, two versions of
the component separated in the source file) and proofs about its UI handlers.

The repository is a thin React wrapper over the external `web-ifc-viewer` /
`web-ifc` libraries.  Library calls are modelled as oracles: each handler takes
parameters describing what the library call would return (or whether it would
throw), and returns an explicit record of the React state updates and library
side effects the handler performs.  A handler body with no try/catch around an
awaited call is modelled as `Except Unit _`, where `.error ()` means the
rejection escapes the handler.
-/

namespace IFCViewer

/-! ### Numeric IFC class constants

These are imported by the source from the external `web-ifc` package.  The
program only ever compares them for identity and passes them back to the
library, so they are modelled as distinct opaque natural-number tokens. -/

def IFCWALL : Nat := 1
def IFCWALLSTANDARDCASE : Nat := 2
def IFCSLAB : Nat := 3
def IFCCOLUMN : Nat := 4
def IFCBEAM : Nat := 5
def IFCDOOR : Nat := 6
def IFCWINDOW : Nat := 7
def IFCROOF : Nat := 8
def IFCSTAIR : Nat := 9
def IFCRAILING : Nat := 10
def IFCMEMBER : Nat := 11
def IFCPLATE : Nat := 12
def IFCCURTAINWALL : Nat := 13
def IFCCOVERING : Nat := 14
def IFCFURNISHINGELEMENT : Nat := 15
def IFCDISTRIBUTIONELEMENT : Nat := 16
def IFCSPACE : Nat := 17
def IFCBUILDINGSTOREY : Nat := 18
def IFCBUILDING : Nat := 19
def IFCSITE : Nat := 20
def IFCPRODUCT : Nat := 21

/-! ### Shared basic types -/

/-- Outcome of an awaited library call: resolves with a value, or rejects. -/
inductive LibCall (α : Type) where
  | ok (a : α)
  | throws
deriving DecidableEq, Repr

/-- A picked element, `{ modelID, id }` as returned by `pickIfcItem` or
assembled from `castRayIfc` + `getExpressId`. -/
structure Item where
  modelID : Nat
  id : Nat
deriving DecidableEq, Repr

/-- An element of the array returned by `viewer.IFC.getAllItemsOfType`: either
a plain express-ID number or an object with an optional `expressID` field. -/
inductive RawItem where
  | num (n : Nat)
  | obj (expressID : Option Nat)
deriving DecidableEq, Repr

/-- Source `normalizeIds` (second version, `App.tsx`): extract express IDs regardless
of the IFC.js return shape, dropping entries without a numeric id. -/
def normalizeIds (items : List RawItem) : List Nat :=
  items.filterMap fun i =>
    match i with
    | .num n => some n
    | .obj e => e

/-! ### Three.js material model (for `setMeshTransparency` /
`restoreMeshTransparency`, second version) -/

/-- The three fields of a three.js material that the transparency helpers
touch.  Opacity is a JS number used only for storage and comparison, so it is
modelled as a rational. -/
structure Material where
  opacity : ℚ
  transparent : Bool
  depthWrite : Bool
deriving DecidableEq, Repr

/-- Materials of a mesh paired with their entry in `transparencyCacheRef`
(a WeakMap keyed by material object; `none` = no entry yet). -/
abbrev MeshState := List (Material × Option Material)

/-- A mesh as handed to the helpers for the first time: no cache entries. -/
def initMesh (mats : List Material) : MeshState :=
  mats.map fun m => (m, none)

/-- Source `setMeshTransparency(mesh, opacity)`: for each material, cache the current
`opacity/transparent/depthWrite` triple only if the cache has no entry for the
material yet, then set `transparent := true`, `opacity := opacity`,
`depthWrite := false`. -/
def setMeshTransparency (opacity : ℚ) (s : MeshState) : MeshState :=
  s.map fun p => (⟨opacity, true, false⟩, some (p.2.getD p.1))

/-- Source `restoreMeshTransparency(mesh)`: for each material with a cache entry,
write the cached triple back; the cache entry itself is kept. -/
def restoreMeshTransparency (s : MeshState) : MeshState :=
  s.map fun p => (p.2.getD p.1, p.2)

/-- The materials currently on the mesh. -/
def meshMaterials (s : MeshState) : List Material :=
  s.map Prod.fst

/-- The material values recorded as original: the cache entry where present,
the live material where not. -/
def origMaterials (s : MeshState) : List Material :=
  s.map fun p => p.2.getD p.1

/-! ### Class counts (`updateClassCounts`, second version) -/

/-- The constant `IFC_CLASS_LIST` from the second version of `App.tsx`. -/
def IFC_CLASS_LIST : List (String × Nat) :=
  [("Walls", IFCWALL),
   ("Wall (Std)", IFCWALLSTANDARDCASE),
   ("Slabs", IFCSLAB),
   ("Columns", IFCCOLUMN),
   ("Beams", IFCBEAM),
   ("Doors", IFCDOOR),
   ("Windows", IFCWINDOW),
   ("Roofs", IFCROOF),
   ("Stairs", IFCSTAIR),
   ("Railings", IFCRAILING),
   ("Members", IFCMEMBER),
   ("Plates", IFCPLATE),
   ("Curtain Walls", IFCCURTAINWALL),
   ("Coverings", IFCCOVERING),
   ("Furnishing", IFCFURNISHINGELEMENT),
   ("Distribution", IFCDISTRIBUTIONELEMENT),
   ("Spaces", IFCSPACE),
   ("Storeys", IFCBUILDINGSTOREY),
   ("Buildings", IFCBUILDING),
   ("Sites", IFCSITE)]

/-- One entry of the `classCounts` React state. -/
structure ClassEntry where
  name : String
  type : Nat
  count : Nat
deriving DecidableEq, Repr

/-- The comparator `(a, b) => b.count - a.count` used by
`filtered.sort(...)`: `a` precedes `b` when `a.count ≥ b.count`. -/
def countGE (a b : ClassEntry) : Prop := b.count ≤ a.count

instance : DecidableRel countGE := fun a b =>
  inferInstanceAs (Decidable (b.count ≤ a.count))

instance : IsTotal ClassEntry countGE :=
  ⟨fun a b => Nat.le_total b.count a.count⟩

instance : IsTrans ClassEntry countGE :=
  ⟨fun _ _ _ hab hbc => Nat.le_trans hbc hab⟩

/-- Source `updateClassCounts`: for each entry of `IFC_CLASS_LIST` count the
normalized ids returned by `getAllItemsOfType`, keep the classes with a
positive count, and sort by count descending.  `items` is the library oracle:
what `getAllItemsOfType(modelID, type, false)` resolves to for each type.
JS `Array.prototype.sort` with a consistent comparator is modelled by
insertion sort with the same comparator. -/
def updateClassCounts (items : Nat → List RawItem) : List ClassEntry :=
  List.insertionSort countGE
    ((IFC_CLASS_LIST.map fun e =>
        ⟨e.1, e.2, (normalizeIds (items e.2)).length⟩).filter
      fun e => decide (0 < e.count))

/-! ### Loading an IFC file (`handleLoadIfc`, both versions) -/

/-- What `viewer.IFC.loadIfcUrl(url)` does: rejects, resolves with no model,
or resolves with a model carrying a `modelID`. -/
inductive LoadOutcome where
  | throws
  | returnsNull
  | returnsModel (mid : Nat)
deriving DecidableEq, Repr

/-- Observable effects of `handleLoadIfc` (first version):
every `setStatus` argument in order, whether the properties were cleared, the
`setModelID` argument if reached, and whether `URL.revokeObjectURL` ran. -/
structure LoadRunV1 where
  statusTrace : List String
  propsCleared : Bool
  modelSet : Option Nat
  urlRevoked : Bool
deriving DecidableEq, Repr

/-- Body of the first version of `handleLoadIfc` (after the `viewer` null guard).
`renderShadowThrows` says whether the `shadowDropper.renderShadow` call after
the success status throws; `loadIfcUrl` resolving with no model makes the
`model.modelID` access throw, landing in the same catch.  The catch sets the
failure status; the finally block revokes the object URL. -/
def handleLoadIfcV1 (fileName : String) (outcome : LoadOutcome)
    (renderShadowThrows : Bool) : LoadRunV1 :=
  match outcome with
  | .throws =>
      ⟨["Loading IFC...", "Failed to load IFC."], true, none, true⟩
  | .returnsNull =>
      ⟨["Loading IFC...", "Failed to load IFC."], true, none, true⟩
  | .returnsModel mid =>
      if renderShadowThrows then
        ⟨["Loading IFC...", "Loaded: " ++ fileName, "Failed to load IFC."],
         true, some mid, true⟩
      else
        ⟨["Loading IFC...", "Loaded: " ++ fileName], true, some mid, true⟩

/-- Observable effects of `handleLoadIfc` (second version), including the
clipping state it forces at entry. -/
structure LoadRunV2 where
  planesDeleted : Bool
  clipActive : Bool
  clipEnabled : Bool
  statusTrace : List String
  propsCleared : Bool
  selectedClassReset : Bool
  modelSet : Option Nat
  urlRevoked : Bool
deriving DecidableEq, Repr

/-- Body of the second version of `handleLoadIfc` (after the `viewer` null guard).
It first deletes all clipping planes and forces `clipper.active` and the
`clipEnabled` state to `false`, resets the caches, sets the loading status and
clears properties and the selected class.  A `loadIfcUrl` rejection is caught;
a null model takes the explicit `!model` early return; on success the loaded
status is set, and `postLoadThrows` says whether any of the later calls inside
the try block (`renderShadow`, bounds fitting, `updateClassCounts`,
`applyClassHighlight`) throws, which the same catch turns into the failure
status.  The finally block revokes the object URL in every case. -/
def handleLoadIfcV2 (fileName : String) (outcome : LoadOutcome)
    (postLoadThrows : Bool) : LoadRunV2 :=
  match outcome with
  | .throws =>
      ⟨true, false, false, ["Loading IFC...", "Failed to load IFC."],
       true, true, none, true⟩
  | .returnsNull =>
      ⟨true, false, false, ["Loading IFC...", "Failed to load IFC."],
       true, true, none, true⟩
  | .returnsModel mid =>
      if postLoadThrows then
        ⟨true, false, false,
         ["Loading IFC...", "Loaded: " ++ fileName, "Failed to load IFC."],
         true, true, some mid, true⟩
      else
        ⟨true, false, false,
         ["Loading IFC...", "Loaded: " ++ fileName],
         true, true, some mid, true⟩

/-! ### Type filters (`FILTERS` / `toggleFilter`, first version) -/

/-- One entry of the `FILTERS` constant (first version). -/
structure FilterEntry where
  name : String
  type : Nat
deriving DecidableEq, Repr

/-- The constant `FILTERS` from the first version of `App.tsx`. -/
def FILTERS : List FilterEntry :=
  [⟨"Walls", IFCWALL⟩, ⟨"Slabs", IFCSLAB⟩, ⟨"Columns", IFCCOLUMN⟩,
   ⟨"Beams", IFCBEAM⟩, ⟨"Doors", IFCDOOR⟩, ⟨"Windows", IFCWINDOW⟩]

/-- A visibility call made into the library by `toggleFilter`. -/
inductive ItemCall where
  | hideItems (modelID : Nat) (items : List RawItem)
  | showItems (modelID : Nat) (items : List RawItem)
deriving DecidableEq, Repr

/-- Result of one `toggleFilter` run: the updated `hiddenTypes` record
(a total map, matching the `?? false` default) and the library call made. -/
structure ToggleResult where
  hiddenTypes : Nat → Bool
  call : Option ItemCall

/-- Source `toggleFilter(type)` (first version): bail out with no effect when no
model is loaded; otherwise flip the flag recorded for `type`, calling
`hideItems` on all items of that type when the new flag is hidden and
`showItems` when it is visible.  `items` is the library oracle for
`getAllItemsOfType(modelID, type, false)`. -/
def toggleFilter (items : Nat → List RawItem) (modelID : Option Nat)
    (hiddenTypes : Nat → Bool) (t : Nat) : ToggleResult :=
  match modelID with
  | none => ⟨hiddenTypes, none⟩
  | some m =>
      let shouldHide := !(hiddenTypes t)
      ⟨fun u => if u = t then shouldHide else hiddenTypes u,
       some (if shouldHide then ItemCall.hideItems m (items t)
             else ItemCall.showItems m (items t))⟩

/-- Two consecutive `toggleFilter` runs on the same type (the second reads
the state produced by the first). -/
def toggleFilterTwice (items : Nat → List RawItem) (modelID : Option Nat)
    (hiddenTypes : Nat → Bool) (t : Nat) : ToggleResult :=
  toggleFilter items modelID
    (toggleFilter items modelID hiddenTypes t).hiddenTypes t

/-! ### Clipping planes (second version) -/

/-- The material of the mesh of a clipping plane: the fields the plane-placement
click styles.  `hasGridMap` records whether `material.map` is the blue grid
`CanvasTexture`. -/
structure PlaneMaterial where
  color : Nat
  opacity : ℚ
  transparent : Bool
  hasGridMap : Bool
deriving DecidableEq, Repr

/-- The styling the placement click applies to a freshly created plane:
color `0x2f66c7`, opacity `0.25`, transparent, with the grid texture map. -/
def styledPlaneMaterial : PlaneMaterial :=
  ⟨0x2f66c7, 0.25, true, true⟩

/-- The clipping-related state: the `clipper.active` flag of the library and
plane list, and the React `clipEnabled` / `placingPlane` states. -/
structure ClipState where
  clipperActive : Bool
  clipEnabled : Bool
  placingPlane : Bool
  planes : List PlaneMaterial
deriving DecidableEq, Repr

/-- Source `handleToggleClip` (second version): read `clipper.active`, negate it,
and write the result to both `clipper.active` and `clipEnabled`. -/
def handleToggleClip (s : ClipState) : ClipState :=
  { s with clipperActive := !s.clipperActive, clipEnabled := !s.clipperActive }

/-- Source `handleAddPlane` (second version): with no model loaded it does nothing;
otherwise it forces `clipper.active` and `clipEnabled` to `true`, clears the
pre-pick and pick selection, and enters plane-placement mode. -/
def handleAddPlane (modelID : Option Nat) (s : ClipState) : ClipState :=
  match modelID with
  | none => s
  | some _ =>
      { s with clipperActive := true, clipEnabled := true,
               placingPlane := true }

/-- Source `handleClearPlanes` (second version): delete all clipping planes and
leave plane-placement mode. -/
def handleClearPlanes (s : ClipState) : ClipState :=
  { s with planes := [], placingPlane := false }

/-! ### Property fetching (`fetchProperties`, second version) -/

/-- The value stored in the `properties` state: either the object returned by
`viewer.IFC.getProperties`, or the `{ ...item, psets, mats, type }` object
assembled by the fallback path.  Payloads are opaque. -/
inductive PropsData where
  | direct (p : Nat)
  | assembled (item : Nat) (psets : List Nat) (mats : List Nat)
      (typs : List Nat)
deriving DecidableEq, Repr

/-- Oracle for the five library calls `fetchProperties` can make.
`getProps` may resolve to null, which is falsy and takes the fallback path
without being counted as a caught error. -/
structure FetchEnv where
  getProps : LibCall (Option Nat)
  getItemProps : LibCall Nat
  getPsets : LibCall (List Nat)
  getMats : LibCall (List Nat)
  getTypes : LibCall (List Nat)
deriving DecidableEq, Repr

/-- Observable result of `fetchProperties`: the returned value, how many
`console.warn` calls ran (one per caught error), and every `setStatus`
argument (the function contains no `setStatus` call). -/
structure FetchResult where
  result : Option PropsData
  consoleWarns : Nat
  statusSets : List String
deriving DecidableEq, Repr

/-- The fallback path of `fetchProperties`, entered with the number of
warnings already emitted: `getItemProperties` throwing is caught and yields
null; otherwise psets, materials and type properties are each fetched in
their own try, an empty list standing in on a caught error. -/
def fetchPropertiesFallback (env : FetchEnv) (w0 : Nat) : FetchResult :=
  match env.getItemProps with
  | .throws => ⟨none, w0 + 1, []⟩
  | .ok item =>
      let ps := match env.getPsets with
        | .ok l => (l, 0)
        | .throws => (([] : List Nat), 1)
      let ms := match env.getMats with
        | .ok l => (l, 0)
        | .throws => (([] : List Nat), 1)
      let ts := match env.getTypes with
        | .ok l => (l, 0)
        | .throws => (([] : List Nat), 1)
      ⟨some (.assembled item ps.1 ms.1 ts.1),
       w0 + ps.2 + ms.2 + ts.2, []⟩

/-- Source `fetchProperties` (second version): try `getProperties` first and return
its result when truthy; a caught error warns and falls back, a null result
falls back silently.  All errors are caught inside the function. -/
def fetchProperties (env : FetchEnv) : FetchResult :=
  match env.getProps with
  | .ok (some p) => ⟨some (.direct p), 0, []⟩
  | .ok none => fetchPropertiesFallback env 0
  | .throws => fetchPropertiesFallback env 1

/-! ### Canvas click handlers (both versions) -/

/-- Observable effects of `handleClick` (first version):
whether `unpickIfcItems` ran, the `setProperties` argument if set (the empty
string or the stringified properties payload), and the
`getProperties(modelID, id, recursive, psets)` call made, if any. -/
structure ClickRunV1 where
  unpicked : Bool
  propsSet : Option String
  getPropsCall : Option (Nat × Nat × Bool × Bool)
deriving DecidableEq, Repr

/-- The first version of `handleClick`.  Neither `pickIfcItem` nor `getProperties`
is inside a try/catch, so a rejection of either escapes the handler
(`.error ()`).  With no pick result, the properties state is set to the empty
string and the handler returns without unpicking; with a result, the
properties are fetched with both flags `true` and stringified. -/
def handleClickV1 (pick : LibCall (Option Item))
    (getProps : Nat → Nat → LibCall String) : Except Unit ClickRunV1 :=
  match pick with
  | .throws => .error ()
  | .ok none => .ok ⟨false, some "", none⟩
  | .ok (some it) =>
      match getProps it.modelID it.id with
      | .throws => .error ()
      | .ok json =>
          .ok ⟨false, some json, some (it.modelID, it.id, true, true)⟩

/-- Oracle for one click in the second version: whether `clipper.createPlane`
creates a plane (placement mode), the `pickIfcItem` outcome, the combined
`castRayIfc` + `getExpressId` fallback result, and the property-fetch
oracle. -/
structure ClickEnvV2 where
  createsPlane : Bool
  pick : LibCall (Option Item)
  castRayHit : Option Item
  fetch : FetchEnv
deriving DecidableEq, Repr

/-- Observable effects of `handleClick` (second version). -/
structure ClickRunV2 where
  contextMenuClosed : Bool
  planes : List PlaneMaterial
  placing : Bool
  pickCalled : Bool
  unpicked : Bool
  propsSet : Option (Option PropsData)
  fetchCalls : List (Nat × Nat × Bool × Bool)
deriving DecidableEq, Repr

/-- The second version of `handleClick`.  It always closes the context menu and
syncs the mouse position first.  In plane-placement mode it calls
`createPlane`, styles the new plane (when one was created) with the blue grid
material, leaves placement mode, and returns without any selection.
Otherwise it awaits `pickIfcItem` — not inside any try/catch, so a rejection
escapes the handler — falls back to a raycast, and either fetches and stores
the properties of the resolved element (via `fetchProperties` with both flags
`true`) or unpicks and resets the properties state to null. -/
def handleClickV2 (placingBefore : Bool) (planesBefore : List PlaneMaterial)
    (env : ClickEnvV2) : Except Unit ClickRunV2 :=
  if placingBefore then
    if env.createsPlane then
      .ok ⟨true, planesBefore ++ [styledPlaneMaterial], false, false, false,
           none, []⟩
    else
      .ok ⟨true, planesBefore, false, false, false, none, []⟩
  else
    match env.pick with
    | .throws => .error ()
    | .ok r0 =>
        match r0 <|> env.castRayHit with
        | none => .ok ⟨true, planesBefore, false, true, true, some none, []⟩
        | some it =>
            .ok ⟨true, planesBefore, false, true, false,
                 some (fetchProperties env.fetch).result,
                 [(it.modelID, it.id, true, true)]⟩

/-! ### Hidden elements and the visible subset (second version) -/

/-- A member of `viewer.context.items.pickableIfcModels`: the originally
loaded model, or a subset mesh built from express IDs. -/
inductive PickTarget where
  | originalModel
  | subsetMesh (ids : List Nat)
deriving DecidableEq, Repr

/-- Library oracle for the visibility code: what
`getAllItemsOfType(modelID, IFCPRODUCT, false)` resolves to, the per-class
item lists used by the fallback of `ensureAllProductIds`, and whether
`createSubset` returns a subset. -/
structure VisEnv where
  productItems : List RawItem
  classItems : Nat → List RawItem
  createSubsetOk : Bool

/-- The visibility-related state: `hiddenIdsRef` (a `Set<number>`, kept
duplicate-free), `allProductIdsRef`, `visibleSubsetRef` (the ids the current
`visible` custom subset was built from), the visibility flag of the original model, and
`pickableIfcModels`. -/
structure VisState where
  hiddenIds : List Nat
  allProductIds : Option (List Nat)
  visibleSubset : Option (List Nat)
  originalVisible : Bool
  pickables : List PickTarget
deriving DecidableEq, Repr

/-- JS `Set.add`: append the element only when it is not already present. -/
def setInsert (x : Nat) (l : List Nat) : List Nat :=
  if x ∈ l then l else l ++ [x]

/-- The repeated `originalModel.visible = true; if (!pickables.includes)
pickables.push(originalModel)` block. -/
def addOriginalPickable (p : List PickTarget) : List PickTarget :=
  if PickTarget.originalModel ∈ p then p else p ++ [PickTarget.originalModel]

/-- Source `ensureAllProductIds`: fetch and normalize all `IFCPRODUCT` ids once;
when that list is empty, merge the per-class id lists through a `Set`
instead.  No-op when `allProductIdsRef` is already populated. -/
def ensureAllProductIds (env : VisEnv) (s : VisState) : VisState :=
  match s.allProductIds with
  | some _ => s
  | none =>
      let ids := normalizeIds env.productItems
      let merged :=
        ((IFC_CLASS_LIST.map fun e => normalizeIds (env.classItems e.2)).flatten).dedup
      { s with allProductIds := some (if ids = [] then merged else ids) }

/-- The opening block of `rebuildVisibleSubset`: remove the previous
`visible` custom subset from the scene and splice it out of the pickables. -/
def clearOldSubset (s : VisState) : VisState :=
  match s.visibleSubset with
  | some ids =>
      { s with visibleSubset := none,
               pickables := s.pickables.erase (PickTarget.subsetMesh ids) }
  | none => s

/-- The `originalModel.visible = true` + re-add-to-pickables block. -/
def showOriginal (s : VisState) : VisState :=
  { s with originalVisible := true, pickables := addOriginalPickable s.pickables }

/-- Source `rebuildVisibleSubset`: drop the old subset; with no hidden ids show the
full original model; otherwise build a `visible` custom subset from every
non-hidden product id, hide the original model and make only the subset
pickable; with every id hidden, hide everything; when `createSubset` returns
nothing, fall back to showing the original model. -/
def rebuildVisibleSubset (env : VisEnv) (s : VisState) : VisState :=
  let s1 := clearOldSubset s
  if s1.hiddenIds = [] then showOriginal s1
  else
    let s2 := ensureAllProductIds env s1
    let allIds := s2.allProductIds.getD []
    if allIds = [] then showOriginal s2
    else
      let visibleIds := allIds.filter fun id => decide (id ∉ s2.hiddenIds)
      if visibleIds = [] then
        { s2 with originalVisible := false, pickables := [] }
      else if env.createSubsetOk = true then
        { s2 with originalVisible := false,
                  visibleSubset := some visibleIds,
                  pickables := [PickTarget.subsetMesh visibleIds] }
      else showOriginal s2

/-- Source `handleHideSelected`: with a loaded model and a right-click selection in
that model, make sure the product-id list exists and contains the selected
id, add the id to the hidden set, unpick, close the context menu, and rebuild
the visible subset. -/
def handleHideSelected (env : VisEnv) (modelID : Option Nat)
    (selected : Option Item) (s : VisState) : VisState :=
  match modelID, selected with
  | some m, some sel =>
      if sel.modelID = m then
        let s1 := ensureAllProductIds env s
        let s2 :=
          match s1.allProductIds with
          | some l =>
              if sel.id ∈ l then s1
              else { s1 with allProductIds := some (l ++ [sel.id]) }
          | none => s1
        rebuildVisibleSubset env
          { s2 with hiddenIds := setInsert sel.id s2.hiddenIds }
      else s
  | _, _ => s

/-- Source `handleShowAll`: with a loaded model, clear the hidden set, close the
context menu, and rebuild the visible subset. -/
def handleShowAll (env : VisEnv) (modelID : Option Nat) (s : VisState) :
    VisState :=
  match modelID with
  | some _ => rebuildVisibleSubset env { s with hiddenIds := [] }
  | none => s

/-- What geometry the scene shows for the model after a rebuild: the full
original model, a subset of express IDs, or nothing. -/
inductive Displayed where
  | whole
  | subsetIds (ids : List Nat)
  | nothing
deriving DecidableEq, Repr

/-- Read the displayed geometry off the visibility state. -/
def displayedGeometry (s : VisState) : Displayed :=
  match s.visibleSubset with
  | some ids => Displayed.subsetIds ids
  | none => if s.originalVisible then Displayed.whole else Displayed.nothing

/-! ### Class highlighting (second version) -/

/-- The state touched by the class-highlight handlers: the selected class,
the ids of the `class-highlight` subset, `typeCacheRef`, and the material of
the display mesh together with its `transparencyCacheRef` entry (the
display mesh, modelled with a single material). -/
structure HighlightState where
  selectedClassType : Option Nat
  highlightSubset : Option (List Nat)
  typeCache : List (Nat × List Nat)
  mesh : Material
  meshCache : Option Material
deriving DecidableEq, Repr

/-- Source `getTypeIds`: return the cached id list for a type, or fetch it from the
library and cache it; a library rejection propagates (the caller catches
it). -/
def getTypeIds (env : Nat → LibCall (List Nat)) (t : Nat)
    (st : HighlightState) : LibCall (List Nat) × HighlightState :=
  match st.typeCache.lookup t with
  | some ids => (.ok ids, st)
  | none =>
      match env t with
      | .ok ids => (.ok ids, { st with typeCache := (t, ids) :: st.typeCache })
      | .throws => (.throws, st)

/-- Source `setMeshTransparency(target, o)` on the single-material display mesh:
cache the current material on first touch, then fade it. -/
def setDisplayMeshTransparency (o : ℚ) (st : HighlightState) :
    HighlightState :=
  { st with meshCache := some (st.meshCache.getD st.mesh),
            mesh := ⟨o, true, false⟩ }

/-- Source `clearClassHighlight`: remove the `class-highlight` subset if present,
restore the display mesh from the transparency cache (the cache entry is
kept), and reset the selected class to null. -/
def clearClassHighlight (st : HighlightState) : HighlightState :=
  let st1 := { st with highlightSubset := none }
  let st2 :=
    match st1.meshCache with
    | some c => { st1 with mesh := c }
    | none => st1
  { st2 with selectedClassType := none }

/-- Source `applyClassHighlight`: resolve the ids of the class (a caught failure leaves
them empty), clear any previous highlight, and — when there are ids — create
the highlight subset over all of them, fade the display mesh to opacity
`0.2`, and record the class as selected. -/
def applyClassHighlight (env : Nat → LibCall (List Nat)) (t : Nat)
    (st : HighlightState) : HighlightState :=
  let r := getTypeIds env t st
  let ids := match r.1 with | .ok l => l | .throws => []
  let st2 := clearClassHighlight r.2
  if ids = [] then st2
  else
    let st3 := { st2 with highlightSubset := some ids }
    let st4 := setDisplayMeshTransparency 0.2 st3
    { st4 with selectedClassType := some t }

/-- Source `handleHighlightClass`: with a loaded model, clicking the chip of the
already-selected class clears the highlight; clicking any other chip applies
the highlight for that class. -/
def handleHighlightClass (env : Nat → LibCall (List Nat))
    (modelID : Option Nat) (t : Nat) (st : HighlightState) : HighlightState :=
  match modelID with
  | none => st
  | some _ =>
      if st.selectedClassType = some t then clearClassHighlight st
      else applyClassHighlight env t st

/-! ### The error-handling and click claims as stated in the spec -/

/-- Claim C2 as stated: no exception from a library call escapes an event
handler, and every caught error is surfaced as a status string (here
instantiated at the errors `fetchProperties` catches, which would have to
produce a non-empty status trace). -/
def errorCatchingClaimAsStated : Prop :=
  (∀ (placing : Bool) (planes : List PlaneMaterial) (env : ClickEnvV2),
      ∃ r, handleClickV2 placing planes env = .ok r) ∧
  (∀ (pick : LibCall (Option Item)) (gp : Nat → Nat → LibCall String),
      ∃ r, handleClickV1 pick gp = .ok r) ∧
  (∀ env : FetchEnv, env.getProps = LibCall.throws →
      (fetchProperties env).statusSets ≠ [])

/-- Claim C3 as stated: in both versions, a click outside plane-placement
mode that resolves no element unpicks the current selection and resets the
properties state; a click that resolves an element fetches its properties
recursively with property sets and stores them. -/
def clickClaimAsStated : Prop :=
  (∀ gp : Nat → Nat → LibCall String,
      match handleClickV1 (LibCall.ok none) gp with
      | .ok r => r.unpicked = true ∧ r.propsSet = some ""
      | .error _ => False) ∧
  (∀ (planes : List PlaneMaterial) (cp : Bool) (fenv : FetchEnv),
      match handleClickV2 false planes ⟨cp, LibCall.ok none, none, fenv⟩ with
      | .ok r => r.unpicked = true ∧ r.propsSet = some none
      | .error _ => False) ∧
  (∀ (planes : List PlaneMaterial) (cp : Bool) (fenv : FetchEnv) (it : Item),
      match handleClickV2 false planes
          ⟨cp, LibCall.ok (some it), none, fenv⟩ with
      | .ok r => r.fetchCalls = [(it.modelID, it.id, true, true)] ∧
                 r.propsSet = some (fetchProperties fenv).result
      | .error _ => False) ∧
  (∀ (it : Item) (json : String),
      match handleClickV1 (LibCall.ok (some it))
          (fun _ _ => LibCall.ok json) with
      | .ok r => r.getPropsCall = some (it.modelID, it.id, true, true) ∧
                 r.propsSet = some json
      | .error _ => False)

end IFCViewer

namespace IFCViewer

/-! ## Theorems -/

/-- Source `setMeshTransparency` never changes which values are recorded as
original: a material is cached before its first mutation, and an existing
cache entry is never overwritten. -/
theorem origMaterials_setMeshTransparency (o : ℚ) (s : MeshState) :
    origMaterials (setMeshTransparency o s) = origMaterials s := by
  simp only [origMaterials, setMeshTransparency, List.map_map]
  rfl

/-- Folding any sequence of `setMeshTransparency` calls preserves the
recorded originals. -/
theorem origMaterials_foldl_set (os : List ℚ) :
    ∀ s : MeshState,
      origMaterials (os.foldl (fun t o => setMeshTransparency o t) s) =
        origMaterials s := by
  induction os with
  | nil => intro s; rfl
  | cons o os ih =>
      intro s
      simpa [List.foldl_cons, origMaterials_setMeshTransparency] using
        ih (setMeshTransparency o s)

/-- Claim C9: for every mesh, applying `setMeshTransparency` any number of
times with any opacities and then `restoreMeshTransparency` restores every
`opacity`, `transparent` and `depthWrite` fields of every material to the values they
had before the first call, because the cache keeps only the first-seen values
per material. -/
theorem transparencyRestore_spec (mats : List Material) (os : List ℚ) :
    meshMaterials
      (restoreMeshTransparency
        (os.foldl (fun s o => setMeshTransparency o s) (initMesh mats))) =
      mats := by
  have hrestore : ∀ s : MeshState,
      meshMaterials (restoreMeshTransparency s) = origMaterials s := by
    intro s
    simp only [meshMaterials, restoreMeshTransparency, origMaterials,
      List.map_map]
    rfl
  have hinit : ∀ ms : List Material, origMaterials (initMesh ms) = ms := by
    intro ms
    induction ms with
    | nil => rfl
    | cons a t ih => simpa [origMaterials, initMesh] using ih
  rw [hrestore, origMaterials_foldl_set, hinit]

/-- Claim C10: the class-count list has an entry for a tracked IFC class iff
the model has at least one element of that class (every listed count is
strictly positive), each entry carries the element count of its class, and the
list is sorted in non-increasing order of count. -/
theorem updateClassCounts_spec (items : Nat → List RawItem) :
    (∀ e ∈ updateClassCounts items, 0 < e.count) ∧
    (∀ e ∈ updateClassCounts items, ∃ p ∈ IFC_CLASS_LIST,
        e.name = p.1 ∧ e.type = p.2 ∧
        e.count = (normalizeIds (items p.2)).length) ∧
    (∀ p ∈ IFC_CLASS_LIST, 0 < (normalizeIds (items p.2)).length →
        (⟨p.1, p.2, (normalizeIds (items p.2)).length⟩ : ClassEntry) ∈
          updateClassCounts items) ∧
    List.Sorted countGE (updateClassCounts items) := by
  refine ⟨?_, ?_, ?_, ?_⟩
  · intro e he
    rw [updateClassCounts, List.mem_insertionSort] at he
    have := List.of_mem_filter he
    simpa using this
  · intro e he
    rw [updateClassCounts, List.mem_insertionSort] at he
    have hm := List.mem_of_mem_filter he
    rcases List.mem_map.1 hm with ⟨p, hp, rfl⟩
    exact ⟨p, hp, rfl, rfl, rfl⟩
  · intro p hp hpos
    rw [updateClassCounts, List.mem_insertionSort]
    refine List.mem_filter.2 ⟨?_, by simpa using hpos⟩
    exact List.mem_map.2 ⟨p, hp, rfl⟩
  · exact List.sorted_insertionSort countGE _

/-- Witness for C10 at a concrete model: a model with exactly one wall lists
the Walls chip, with count 1. -/
theorem updateClassCounts_spec_witness :
    (⟨"Walls", IFCWALL, 1⟩ : ClassEntry) ∈
      updateClassCounts
        (fun t => if t = IFCWALL then [RawItem.num 7] else []) := by
  have h :=
    (updateClassCounts_spec
        (fun t => if t = IFCWALL then [RawItem.num 7] else [])).2.2.1
  exact h ("Walls", IFCWALL) (by decide) (by decide)

/-- Claim C1: in both versions, `handleLoadIfc` first sets the status to
`Loading IFC...` and clears the properties state; a rejected load call (and,
in the second version, a null model) ends with the failure status;
a successful load sets a status of `Loaded:` followed by the file name; and the
object URL is revoked in every case. -/
theorem loadIfc_status_and_url_spec (fileName : String) (mid : Nat)
    (b : Bool) :
    (∀ o, (handleLoadIfcV1 fileName o b).statusTrace.head? =
            some "Loading IFC..." ∧
          (handleLoadIfcV1 fileName o b).propsCleared = true ∧
          (handleLoadIfcV1 fileName o b).urlRevoked = true) ∧
    (∀ o, (handleLoadIfcV2 fileName o b).statusTrace.head? =
            some "Loading IFC..." ∧
          (handleLoadIfcV2 fileName o b).propsCleared = true ∧
          (handleLoadIfcV2 fileName o b).urlRevoked = true) ∧
    (handleLoadIfcV1 fileName LoadOutcome.throws b).statusTrace.getLast? =
      some "Failed to load IFC." ∧
    (handleLoadIfcV2 fileName LoadOutcome.throws b).statusTrace.getLast? =
      some "Failed to load IFC." ∧
    (handleLoadIfcV2 fileName LoadOutcome.returnsNull b).statusTrace.getLast? =
      some "Failed to load IFC." ∧
    ("Loaded: " ++ fileName) ∈
      (handleLoadIfcV1 fileName (LoadOutcome.returnsModel mid) b).statusTrace ∧
    ("Loaded: " ++ fileName) ∈
      (handleLoadIfcV2 fileName (LoadOutcome.returnsModel mid) b).statusTrace := by
  refine ⟨?_, ?_, ?_, ?_, ?_, ?_, ?_⟩
  · intro o
    cases o <;> cases b <;> simp [handleLoadIfcV1]
  · intro o
    cases o <;> cases b <;> simp [handleLoadIfcV2]
  · cases b <;> simp [handleLoadIfcV1]
  · cases b <;> simp [handleLoadIfcV2]
  · cases b <;> simp [handleLoadIfcV2]
  · cases b <;> simp [handleLoadIfcV1]
  · cases b <;> simp [handleLoadIfcV2]

/-- Claim C5: with a model loaded, toggling a filter whose type is not marked
hidden calls `hideItems` on all items of that type and records the type as
hidden; toggling it again calls `showItems` on those items and returns the
flag to its prior value, leaving the flag of every other type unchanged. -/
theorem toggleFilter_spec (items : Nat → List RawItem) (m : Nat)
    (ht : Nat → Bool) (t : Nat)
    (_hmem : t ∈ FILTERS.map FilterEntry.type) (hvis : ht t = false) :
    (toggleFilter items (some m) ht t).call =
      some (ItemCall.hideItems m (items t)) ∧
    (toggleFilter items (some m) ht t).hiddenTypes t = true ∧
    (toggleFilterTwice items (some m) ht t).call =
      some (ItemCall.showItems m (items t)) ∧
    (toggleFilterTwice items (some m) ht t).hiddenTypes t = ht t ∧
    (∀ u, u ≠ t →
      (toggleFilterTwice items (some m) ht t).hiddenTypes u = ht u) ∧
    (∀ ht2 : Nat → Bool,
      (toggleFilterTwice items (some m) ht2 t).hiddenTypes t = ht2 t) := by
  refine ⟨?_, ?_, ?_, ?_, ?_, ?_⟩
  · simp [toggleFilter, hvis]
  · simp [toggleFilter, hvis]
  · simp [toggleFilter, toggleFilterTwice, hvis]
  · simp [toggleFilter, toggleFilterTwice, hvis]
  · intro u hu
    simp [toggleFilter, toggleFilterTwice, hu]
  · intro ht2
    cases h2 : ht2 t <;> simp [toggleFilter, toggleFilterTwice, h2]

/-- Witness for C5 at a concrete run: toggling Walls from the all-visible
state hides them, and toggling twice restores the flag. -/
theorem toggleFilter_spec_witness :
    (toggleFilter (fun _ => [RawItem.num 4]) (some 0) (fun _ => false)
        IFCWALL).call = some (ItemCall.hideItems 0 [RawItem.num 4]) ∧
    (toggleFilterTwice (fun _ => [RawItem.num 4]) (some 0) (fun _ => false)
        IFCWALL).hiddenTypes IFCWALL = false := by
  have h := toggleFilter_spec (fun _ => [RawItem.num 4]) 0 (fun _ => false)
    IFCWALL (by decide) rfl
  exact ⟨h.1, h.2.2.2.1⟩

/-- Claim C7: after each clipping operation the React `clipEnabled` state
equals the `clipper.active` flag of the library: toggling flips both together,
`handleAddPlane` forces both to `true`, and `handleLoadIfc` (second version)
forces both to `false`. -/
theorem clipSync_spec (s : ClipState) (m : Nat) (fileName : String)
    (o : LoadOutcome) (b : Bool)
    (hsync : s.clipEnabled = s.clipperActive) :
    ((handleToggleClip s).clipEnabled = (handleToggleClip s).clipperActive ∧
     (handleToggleClip s).clipperActive = !s.clipperActive ∧
     (handleToggleClip s).clipEnabled = !s.clipEnabled) ∧
    ((handleAddPlane (some m) s).clipperActive = true ∧
     (handleAddPlane (some m) s).clipEnabled = true) ∧
    ((handleLoadIfcV2 fileName o b).clipActive = false ∧
     (handleLoadIfcV2 fileName o b).clipEnabled = false) := by
  refine ⟨⟨rfl, rfl, ?_⟩, ⟨rfl, rfl⟩, ?_⟩
  · simp [handleToggleClip, hsync]
  · cases o <;> cases b <;> simp [handleLoadIfcV2]

/-- Witness for C7 at a concrete state: toggling from the enabled, in-sync
state disables both flags together. -/
theorem clipSync_spec_witness :
    (handleToggleClip ⟨true, true, false, []⟩).clipEnabled = false ∧
    (handleToggleClip ⟨true, true, false, []⟩).clipperActive = false := by
  have h := clipSync_spec ⟨true, true, false, []⟩ 0 "a.ifc"
    LoadOutcome.throws false rfl
  exact ⟨by simpa using h.1.2.2, by simpa using h.1.2.1⟩

/-- The fallback of `fetchProperties` never records a status update. -/
theorem fetchFallback_statusSets (env : FetchEnv) (w0 : Nat) :
    (fetchPropertiesFallback env w0).statusSets = [] := by
  unfold fetchPropertiesFallback
  cases env.getItemProps <;> rfl

/-- The fallback of `fetchProperties` emits at least the warnings it entered
with. -/
theorem fetchFallback_warns_ge (env : FetchEnv) (w0 : Nat) :
    w0 ≤ (fetchPropertiesFallback env w0).consoleWarns := by
  rcases env with ⟨gp, gi, gps, gm, gt⟩
  cases gi <;> cases gps <;> cases gm <;> cases gt <;>
    simp [fetchPropertiesFallback] <;> omega

/-- Counterexample for claim C2: the claim as stated is false.  At the
concrete input where `pickIfcItem` rejects during an ordinary canvas click,
the rejection escapes the click handler (second version), which has no
try/catch around the call. -/
theorem pick_exception_escapes_counterexample : ¬ errorCatchingClaimAsStated := by
  intro h
  rcases h.1 false []
      ⟨false, LibCall.throws, none,
       ⟨LibCall.ok none, LibCall.ok 0, LibCall.ok [], LibCall.ok [],
        LibCall.ok []⟩⟩ with ⟨r, hr⟩
  simp [handleClickV2] at hr

/-- Claim C2 amended: errors from the library load call are caught in
`handleLoadIfc` and surfaced as the failure status; errors in
property fetching are caught inside `fetchProperties`, which emits console
warnings and never sets a status string; but a library call awaited outside
any try block — `pickIfcItem` in the canvas click handler — escapes the
handler when it rejects. -/
theorem errorHandling_amended_spec :
    (∀ (fileName : String) (b : Bool),
        (handleLoadIfcV1 fileName LoadOutcome.throws b).statusTrace.getLast? =
          some "Failed to load IFC." ∧
        (handleLoadIfcV2 fileName LoadOutcome.throws b).statusTrace.getLast? =
          some "Failed to load IFC.") ∧
    (∀ env : FetchEnv,
        (fetchProperties env).statusSets = [] ∧
        (env.getProps = LibCall.throws →
          0 < (fetchProperties env).consoleWarns)) ∧
    (∀ (planes : List PlaneMaterial) (hit : Option Item) (fenv : FetchEnv)
        (cp : Bool),
        handleClickV2 false planes ⟨cp, LibCall.throws, hit, fenv⟩ =
          .error ()) := by
  refine ⟨?_, ?_, ?_⟩
  · intro fileName b
    cases b <;> exact ⟨rfl, rfl⟩
  · intro env
    constructor
    · unfold fetchProperties
      rcases hgp : env.getProps with a | _
      · cases a
        · exact fetchFallback_statusSets env 0
        · rfl
      · exact fetchFallback_statusSets env 1
    · intro hthrows
      unfold fetchProperties
      rw [hthrows]
      exact fetchFallback_warns_ge env 1
  · intro planes hit fenv cp
    rfl

/-- Witness for the amended C2 at concrete inputs: with every fetch call
rejecting, `fetchProperties` sets no status and warns at least once, and a
rejecting `pickIfcItem` escapes the click handler. -/
theorem errorHandling_amended_witness :
    (fetchProperties
        ⟨LibCall.throws, LibCall.throws, LibCall.throws, LibCall.throws,
         LibCall.throws⟩).statusSets = [] ∧
    0 < (fetchProperties
        ⟨LibCall.throws, LibCall.throws, LibCall.throws, LibCall.throws,
         LibCall.throws⟩).consoleWarns ∧
    handleClickV2 false []
        ⟨false, LibCall.throws, none,
         ⟨LibCall.ok none, LibCall.ok 0, LibCall.ok [], LibCall.ok [],
          LibCall.ok []⟩⟩ = .error () := by
  have h := errorHandling_amended_spec
  exact ⟨(h.2.1 _).1, (h.2.1 _).2 rfl, h.2.2 [] none _ false⟩

/-- Counterexample for claim C3: the claim as stated is false.  In the first
version, a click that resolves no element (`pickIfcItem` returns null) only
sets the properties state to the empty string; `unpickIfcItems` is never
called. -/
theorem clickV1_no_unpick_counterexample : ¬ clickClaimAsStated := by
  intro h
  have h1 := h.1 (fun _ _ => LibCall.ok "")
  simp [handleClickV1] at h1

/-- Claim C3 amended: for a click outside plane-placement mode, the second
version unpicks the selection and resets the properties state to null when no
element is resolved, and fetches the properties of the resolved element
(recursively, with property sets) and stores them when one is; the first
version behaves the same except that with no pick result it only resets the
properties state to the empty string, without unpicking. -/
theorem click_selection_amended_spec :
    (∀ (planes : List PlaneMaterial) (cp : Bool) (fenv : FetchEnv),
        match handleClickV2 false planes
            ⟨cp, LibCall.ok none, none, fenv⟩ with
        | .ok r => r.unpicked = true ∧ r.propsSet = some none
        | .error _ => False) ∧
    (∀ (planes : List PlaneMaterial) (cp : Bool) (fenv : FetchEnv)
        (it : Item) (hit : Option Item),
        match handleClickV2 false planes
            ⟨cp, LibCall.ok (some it), hit, fenv⟩ with
        | .ok r => r.fetchCalls = [(it.modelID, it.id, true, true)] ∧
                   r.propsSet = some (fetchProperties fenv).result
        | .error _ => False) ∧
    (∀ (planes : List PlaneMaterial) (cp : Bool) (fenv : FetchEnv)
        (it : Item),
        match handleClickV2 false planes
            ⟨cp, LibCall.ok none, some it, fenv⟩ with
        | .ok r => r.fetchCalls = [(it.modelID, it.id, true, true)] ∧
                   r.propsSet = some (fetchProperties fenv).result
        | .error _ => False) ∧
    (∀ gp : Nat → Nat → LibCall String,
        match handleClickV1 (LibCall.ok none) gp with
        | .ok r => r.unpicked = false ∧ r.propsSet = some "" | .error _ => False) ∧
    (∀ (it : Item) (json : String),
        match handleClickV1 (LibCall.ok (some it))
            (fun _ _ => LibCall.ok json) with
        | .ok r => r.getPropsCall = some (it.modelID, it.id, true, true) ∧
                   r.propsSet = some json
        | .error _ => False) := by
  refine ⟨?_, ?_, ?_, ?_, ?_⟩
  · intro planes cp fenv
    exact ⟨rfl, rfl⟩
  · intro planes cp fenv it hit
    exact ⟨rfl, rfl⟩
  · intro planes cp fenv it
    exact ⟨rfl, rfl⟩
  · intro gp
    exact ⟨rfl, rfl⟩
  · intro it json
    exact ⟨rfl, rfl⟩

/-- Claim C8: in plane-placement mode, the next canvas click creates at most
one new clipping plane and styles it with the blue grid material when
creation succeeds, performs no element selection, and always leaves
plane-placement mode; `handleClearPlanes` deletes all planes and also leaves
plane-placement mode. -/
theorem planePlacement_spec (planes : List PlaneMaterial) (env : ClickEnvV2)
    (s : ClipState) :
    (match handleClickV2 true planes env with
     | .ok r =>
         r.planes.length ≤ planes.length + 1 ∧
         r.placing = false ∧
         r.pickCalled = false ∧
         r.unpicked = false ∧
         r.propsSet = none ∧
         r.fetchCalls = [] ∧
         (env.createsPlane = true →
            r.planes = planes ++ [styledPlaneMaterial]) ∧
         (env.createsPlane = false → r.planes = planes)
     | .error _ => False) ∧
    (handleClearPlanes s).planes = [] ∧
    (handleClearPlanes s).placingPlane = false := by
  refine ⟨?_, rfl, rfl⟩
  rcases hc : env.createsPlane with _ | _ <;>
    simp [handleClickV2, hc]

/-- Membership in a `Set.add`-style insert. -/
theorem mem_setInsert (x y : Nat) (l : List Nat) :
    y ∈ setInsert x l ↔ y = x ∨ y ∈ l := by
  unfold setInsert
  by_cases hx : x ∈ l
  · simp only [if_pos hx]
    constructor
    · exact Or.inr
    · rintro (rfl | h)
      · exact hx
      · exact h
  · simp only [if_neg hx, List.mem_append, List.mem_singleton]
    tauto

/-- Dropping the old `visible` custom subset touches only `visibleSubset` and
`pickables`, and leaves `visibleSubset` empty. -/
theorem clearOldSubset_fields (s : VisState) :
    (clearOldSubset s).hiddenIds = s.hiddenIds ∧
    (clearOldSubset s).allProductIds = s.allProductIds ∧
    (clearOldSubset s).visibleSubset = none ∧
    (clearOldSubset s).originalVisible = s.originalVisible := by
  unfold clearOldSubset
  rcases h : s.visibleSubset with _ | ids <;> simp [h]

/-- Source `ensureAllProductIds` touches only `allProductIds`, and afterwards the
list is populated. -/
theorem ensureAllProductIds_fields (env : VisEnv) (s : VisState) :
    (ensureAllProductIds env s).hiddenIds = s.hiddenIds ∧
    (ensureAllProductIds env s).visibleSubset = s.visibleSubset ∧
    (ensureAllProductIds env s).originalVisible = s.originalVisible ∧
    (ensureAllProductIds env s).pickables = s.pickables ∧
    ∃ L, (ensureAllProductIds env s).allProductIds = some L := by
  unfold ensureAllProductIds
  rcases h : s.allProductIds with _ | L <;> simp [h]

/-- Source `ensureAllProductIds` is a no-op when the list is already populated. -/
theorem ensureAllProductIds_of_some (env : VisEnv) (s : VisState)
    (L : List Nat) (h : s.allProductIds = some L) :
    ensureAllProductIds env s = s := by
  unfold ensureAllProductIds
  rw [h]

/-- The original model is pickable after the re-add block. -/
theorem mem_addOriginalPickable (p : List PickTarget) :
    PickTarget.originalModel ∈ addOriginalPickable p := by
  unfold addOriginalPickable
  by_cases h : PickTarget.originalModel ∈ p
  · rw [if_pos h]
    exact h
  · rw [if_neg h]
    exact List.mem_append.2 (Or.inr (List.mem_singleton.2 rfl))

/-- Source `rebuildVisibleSubset` with a non-empty hidden set, a populated product
list containing a hidden id, and a working `createSubset`: the hidden set is
untouched, the original model is hidden, and either everything is hidden
(no subset, nothing pickable) or the new subset excludes every hidden id and
is the only pickable. -/
theorem rebuild_elim_nonempty (env : VisEnv) (s : VisState) (i : Nat)
    (L : List Nat) (hmem : i ∈ s.hiddenIds) (hall : s.allProductIds = some L)
    (hiL : i ∈ L) (hok : env.createSubsetOk = true) :
    (rebuildVisibleSubset env s).hiddenIds = s.hiddenIds ∧
    (rebuildVisibleSubset env s).originalVisible = false ∧
    ((rebuildVisibleSubset env s).visibleSubset = none ∧
       (rebuildVisibleSubset env s).pickables = [] ∨
     ∃ vis, (rebuildVisibleSubset env s).visibleSubset = some vis ∧
       (rebuildVisibleSubset env s).pickables = [PickTarget.subsetMesh vis] ∧
       ∀ x ∈ s.hiddenIds, x ∉ vis) := by
  obtain ⟨h1, h2, h3, h4⟩ := clearOldSubset_fields s
  have hne : ¬(clearOldSubset s).hiddenIds = [] := by
    rw [h1]
    exact List.ne_nil_of_mem hmem
  have hens : ensureAllProductIds env (clearOldSubset s) = clearOldSubset s :=
    ensureAllProductIds_of_some env _ L (h2.trans hall)
  have hallIds : (clearOldSubset s).allProductIds.getD [] = L := by
    rw [h2, hall]
    rfl
  have hLne : ¬L = [] := List.ne_nil_of_mem hiL
  by_cases hv : (L.filter fun id =>
      decide (id ∉ (clearOldSubset s).hiddenIds)) = []
  · -- every product id is hidden: nothing is shown
    have hr : rebuildVisibleSubset env s =
        { clearOldSubset s with originalVisible := false, pickables := [] } := by
      simp only [rebuildVisibleSubset]
      rw [if_neg hne, hens, hallIds, if_neg hLne, if_pos hv]
    refine ⟨?_, ?_, Or.inl ⟨?_, ?_⟩⟩
    · rw [hr]
      exact h1
    · rw [hr]
    · rw [hr]
      exact h3
    · rw [hr]
  · -- some visible ids remain: the subset branch
    have hr : rebuildVisibleSubset env s =
        { clearOldSubset s with
            originalVisible := false,
            visibleSubset := some (L.filter fun id =>
              decide (id ∉ (clearOldSubset s).hiddenIds)),
            pickables := [PickTarget.subsetMesh (L.filter fun id =>
              decide (id ∉ (clearOldSubset s).hiddenIds))] } := by
      simp only [rebuildVisibleSubset]
      rw [if_neg hne, hens, hallIds, if_neg hLne, if_neg hv, if_pos hok]
    refine ⟨?_, ?_, Or.inr ⟨L.filter fun id =>
      decide (id ∉ (clearOldSubset s).hiddenIds), ?_, ?_, ?_⟩⟩
    · rw [hr]
      exact h1
    · rw [hr]
    · rw [hr]
    · rw [hr]
    · intro x hx hxvis
      have h5 := List.mem_filter.1 hxvis
      have h6 : x ∉ (clearOldSubset s).hiddenIds := of_decide_eq_true h5.2
      rw [h1] at h6
      exact h6 hx

/-- Source `rebuildVisibleSubset` with an empty hidden set shows the full original
model and makes it pickable. -/
theorem rebuild_empty_hidden (env : VisEnv) (s : VisState)
    (h : s.hiddenIds = []) :
    (rebuildVisibleSubset env s).hiddenIds = [] ∧
    (rebuildVisibleSubset env s).originalVisible = true ∧
    (rebuildVisibleSubset env s).visibleSubset = none ∧
    PickTarget.originalModel ∈ (rebuildVisibleSubset env s).pickables := by
  obtain ⟨h1, h2, h3, h4⟩ := clearOldSubset_fields s
  have hie : (clearOldSubset s).hiddenIds = [] := h1.trans h
  have hr : rebuildVisibleSubset env s = showOriginal (clearOldSubset s) := by
    simp only [rebuildVisibleSubset]
    rw [if_pos hie]
  rw [hr]
  unfold showOriginal
  exact ⟨by rw [h1, h], rfl, h3, mem_addOriginalPickable _⟩

/-- The rebuild following a hide: over any state whose hidden set is
`setInsert i` of the pre-hide one and whose product list is populated and
contains `i`, the rebuild leaves the hidden set alone, hides the original
model, and any displayed subset excludes every hidden id and is the only
pickable. -/
theorem hide_core (env : VisEnv) (s3 s : VisState) (i : Nat) (L : List Nat)
    (hhid : s3.hiddenIds = setInsert i s.hiddenIds)
    (hall : s3.allProductIds = some L) (hiL : i ∈ L)
    (hok : env.createSubsetOk = true) :
    (∀ x, x ∈ (rebuildVisibleSubset env s3).hiddenIds ↔
        (x = i ∨ x ∈ s.hiddenIds)) ∧
    (rebuildVisibleSubset env s3).originalVisible = false ∧
    displayedGeometry (rebuildVisibleSubset env s3) ≠ Displayed.whole ∧
    (∀ ids, displayedGeometry (rebuildVisibleSubset env s3) =
        Displayed.subsetIds ids →
        (∀ x ∈ (rebuildVisibleSubset env s3).hiddenIds, x ∉ ids) ∧
        (rebuildVisibleSubset env s3).pickables =
          [PickTarget.subsetMesh ids]) := by
  have hmem3 : i ∈ s3.hiddenIds := by
    rw [hhid]
    exact (mem_setInsert i i _).2 (Or.inl rfl)
  obtain ⟨r1, r2, r3⟩ := rebuild_elim_nonempty env s3 i L hmem3 hall hiL hok
  refine ⟨?_, r2, ?_, ?_⟩
  · intro x
    rw [r1, hhid]
    exact mem_setInsert i x _
  · unfold displayedGeometry
    rcases r3 with ⟨hnone, _⟩ | ⟨vis, hsome, _, _⟩
    · rw [hnone, r2]
      simp
    · rw [hsome]
      simp
  · intro ids hids
    unfold displayedGeometry at hids
    rcases r3 with ⟨hnone, _⟩ | ⟨vis, hsome, hpick, hexcl⟩
    · rw [hnone, r2] at hids
      simp at hids
    · rw [hsome] at hids
      cases hids
      refine ⟨?_, hpick⟩
      intro x hx
      rw [r1] at hx
      exact hexcl x hx

/-- Claim C4: with a model loaded, `handleHideSelected` adds exactly the
id of the selected element to the hidden set, leaving the other members unchanged,
and rebuilds the displayed geometry to exclude every hidden id (the full
original model is never what is displayed afterwards, and any subset shown
excludes all hidden ids and is the only pickable); `handleShowAll` empties
the hidden set, after which the original full model is displayed whole and
pickable again. -/
theorem hideSelected_showAll_spec (env : VisEnv) (m i : Nat) (s t : VisState)
    (hok : env.createSubsetOk = true) :
    (∀ x, x ∈ (handleHideSelected env (some m) (some ⟨m, i⟩) s).hiddenIds ↔
        (x = i ∨ x ∈ s.hiddenIds)) ∧
    (handleHideSelected env (some m) (some ⟨m, i⟩) s).originalVisible =
      false ∧
    displayedGeometry (handleHideSelected env (some m) (some ⟨m, i⟩) s) ≠
      Displayed.whole ∧
    (∀ ids,
        displayedGeometry (handleHideSelected env (some m) (some ⟨m, i⟩) s) =
          Displayed.subsetIds ids →
        (∀ x ∈ (handleHideSelected env (some m) (some ⟨m, i⟩) s).hiddenIds,
            x ∉ ids) ∧
        (handleHideSelected env (some m) (some ⟨m, i⟩) s).pickables =
          [PickTarget.subsetMesh ids]) ∧
    ((handleShowAll env (some m) t).hiddenIds = [] ∧
     displayedGeometry (handleShowAll env (some m) t) = Displayed.whole ∧
     PickTarget.originalModel ∈ (handleShowAll env (some m) t).pickables) := by
  obtain ⟨e1, e2, e3, e4, L0, hL0⟩ := ensureAllProductIds_fields env s
  have hmain :
      (∀ x, x ∈ (handleHideSelected env (some m) (some ⟨m, i⟩) s).hiddenIds ↔
          (x = i ∨ x ∈ s.hiddenIds)) ∧
      (handleHideSelected env (some m) (some ⟨m, i⟩) s).originalVisible =
        false ∧
      displayedGeometry (handleHideSelected env (some m) (some ⟨m, i⟩) s) ≠
        Displayed.whole ∧
      (∀ ids,
          displayedGeometry
              (handleHideSelected env (some m) (some ⟨m, i⟩) s) =
            Displayed.subsetIds ids →
          (∀ x ∈ (handleHideSelected env (some m) (some ⟨m, i⟩) s).hiddenIds,
              x ∉ ids) ∧
          (handleHideSelected env (some m) (some ⟨m, i⟩) s).pickables =
            [PickTarget.subsetMesh ids]) := by
    by_cases hi : i ∈ L0
    · have hred : handleHideSelected env (some m) (some ⟨m, i⟩) s =
          rebuildVisibleSubset env
            { ensureAllProductIds env s with
                hiddenIds :=
                  setInsert i (ensureAllProductIds env s).hiddenIds } := by
        simp [handleHideSelected, hL0, hi]
      rw [hred]
      exact hide_core env _ s i L0 (congrArg (setInsert i) e1) hL0 hi hok
    · have hred : handleHideSelected env (some m) (some ⟨m, i⟩) s =
          rebuildVisibleSubset env
            { { ensureAllProductIds env s with
                  allProductIds := some (L0 ++ [i]) } with
                hiddenIds :=
                  setInsert i
                    ({ ensureAllProductIds env s with
                        allProductIds := some (L0 ++ [i]) }).hiddenIds } := by
        simp [handleHideSelected, hL0, hi]
      rw [hred]
      exact hide_core env _ s i (L0 ++ [i]) (congrArg (setInsert i) e1) rfl
        (List.mem_append.2 (Or.inr (List.mem_singleton.2 rfl))) hok
  have hshow := rebuild_empty_hidden env { t with hiddenIds := [] } rfl
  have hshoweq : handleShowAll env (some m) t =
      rebuildVisibleSubset env { t with hiddenIds := [] } := rfl
  refine ⟨hmain.1, hmain.2.1, hmain.2.2.1, hmain.2.2.2, ?_, ?_, ?_⟩
  · rw [hshoweq]
    exact hshow.1
  · rw [hshoweq]
    unfold displayedGeometry
    rw [hshow.2.2.1, hshow.2.1]
    rfl
  · rw [hshoweq]
    exact hshow.2.2.2

/-- Witness for C4 at a concrete run: hiding element 1 of a two-element
model puts 1 in the hidden set, and Show all redisplays the whole model. -/
theorem hideSelected_showAll_spec_witness :
    1 ∈ (handleHideSelected
        ⟨[RawItem.num 1, RawItem.num 2], fun _ => [], true⟩ (some 0)
        (some ⟨0, 1⟩)
        ⟨[], none, none, true, [PickTarget.originalModel]⟩).hiddenIds ∧
    displayedGeometry (handleShowAll
        ⟨[RawItem.num 1, RawItem.num 2], fun _ => [], true⟩ (some 0)
        ⟨[], none, none, true, [PickTarget.originalModel]⟩) =
      Displayed.whole := by
  have h := hideSelected_showAll_spec
    ⟨[RawItem.num 1, RawItem.num 2], fun _ => [], true⟩ 0 1
    ⟨[], none, none, true, [PickTarget.originalModel]⟩
    ⟨[], none, none, true, [PickTarget.originalModel]⟩ rfl
  exact ⟨(h.1 1).2 (Or.inl rfl), h.2.2.2.2.2.1⟩

/-- Claim C6: with a model loaded, selecting a class chip (a class the
library lists at least one element for) creates a highlight subset over all
elements of that class, fades the displayed mesh to opacity `0.2`, and
records the class as selected; selecting the same chip again clears the
highlight, restores the original material fields of the mesh, and resets the
selected class to null. -/
theorem classHighlight_spec (env : Nat → LibCall (List Nat)) (m t : Nat)
    (ids : List Nat) (mesh : Material)
    (henvt : env t = LibCall.ok ids) (hne : ids ≠ []) :
    (handleHighlightClass env (some m) t
        ⟨none, none, [], mesh, none⟩).highlightSubset = some ids ∧
    (handleHighlightClass env (some m) t
        ⟨none, none, [], mesh, none⟩).mesh = ⟨0.2, true, false⟩ ∧
    (handleHighlightClass env (some m) t
        ⟨none, none, [], mesh, none⟩).selectedClassType = some t ∧
    (handleHighlightClass env (some m) t
        (handleHighlightClass env (some m) t
          ⟨none, none, [], mesh, none⟩)).selectedClassType = none ∧
    (handleHighlightClass env (some m) t
        (handleHighlightClass env (some m) t
          ⟨none, none, [], mesh, none⟩)).highlightSubset = none ∧
    (handleHighlightClass env (some m) t
        (handleHighlightClass env (some m) t
          ⟨none, none, [], mesh, none⟩)).mesh = mesh := by
  have h1 : handleHighlightClass env (some m) t
      ⟨none, none, [], mesh, none⟩ =
      ⟨some t, some ids, [(t, ids)], ⟨0.2, true, false⟩, some mesh⟩ := by
    simp [handleHighlightClass, applyClassHighlight, getTypeIds,
      clearClassHighlight, setDisplayMeshTransparency, henvt, hne]
  have h2 : handleHighlightClass env (some m) t
      ⟨some t, some ids, [(t, ids)], ⟨0.2, true, false⟩, some mesh⟩ =
      ⟨none, none, [(t, ids)], mesh, some mesh⟩ := by
    simp [handleHighlightClass, clearClassHighlight]
  rw [h1, h2]
  exact ⟨rfl, rfl, rfl, rfl, rfl, rfl⟩

/-- Witness for C6 at a concrete run: highlighting class 3 (one element, id
5) on a fresh state selects it, and highlighting it again restores the
original mesh material. -/
theorem classHighlight_spec_witness :
    (handleHighlightClass (fun _ => LibCall.ok [5]) (some 0) 3
        ⟨none, none, [], ⟨1, false, true⟩, none⟩).selectedClassType =
      some 3 ∧
    (handleHighlightClass (fun _ => LibCall.ok [5]) (some 0) 3
        (handleHighlightClass (fun _ => LibCall.ok [5]) (some 0) 3
          ⟨none, none, [], ⟨1, false, true⟩, none⟩)).mesh =
      ⟨1, false, true⟩ := by
  have h := classHighlight_spec (fun _ => LibCall.ok [5]) 0 3 [5]
    ⟨1, false, true⟩ rfl (by decide)
  exact ⟨h.2.2.1, h.2.2.2.2.2⟩

/-- Witness for C8 at a concrete click: from an empty plane list, a placement
click that creates a plane ends with one styled plane and placement mode
off. -/
theorem planePlacement_spec_witness :
    (match handleClickV2 true []
        ⟨true, LibCall.ok none, none,
         ⟨LibCall.ok none, LibCall.ok 0, LibCall.ok [], LibCall.ok [],
          LibCall.ok []⟩⟩ with
     | .ok r => r.planes = [styledPlaneMaterial] ∧ r.placing = false
     | .error _ => False) := by
  have h := (planePlacement_spec []
      ⟨true, LibCall.ok none, none,
       ⟨LibCall.ok none, LibCall.ok 0, LibCall.ok [], LibCall.ok [],
        LibCall.ok []⟩⟩ ⟨true, true, false, []⟩).1
  exact ⟨h.2.2.2.2.2.2.1 rfl, h.2.1⟩

end IFCViewer
